import Mathlib

/-!
# BetterArduinoMotorController: register-level model

A shallow embedding of `src/MotorController/MotorController.{h,cpp}`.

* Hardware registers are memory-mapped bytes, so the register file is a map
  from addresses to bytes and every `volatile uint8_t *` is an address; the
  null pointer is address `0`.
* Each driver function takes the reference and the register file and returns
  its `int` result together with the reference and register file it leaves.
* `int` is the 16-bit `int` of avr-gcc (the registers named in the source are
  those of the ATmega328P); arithmetic that can leave that range is reduced
  to it explicitly.
-/

namespace MotorController

/-! ## Data model -/

/-- An address of a memory-mapped register; `0` is the null pointer. -/
abbrev Addr := Nat

/-- The register file: the byte stored at each address. -/
abbrev Mem := Addr → Nat

/-- Conversion of an `int` value to `uint8_t` (reduction modulo 256). -/
def toUint8 (v : Int) : Nat := (v % 256).toNat

/-- The store `*p = v` through a `volatile uint8_t *`. -/
def Mem.write (m : Mem) (p : Addr) (v : Int) : Mem :=
  fun a => if a = p then toUint8 v else m a

/-- The value of a 16-bit two's-complement `int` holding the mathematical
result `v` of an arithmetic operation. -/
def wrapInt (v : Int) : Int := (v + 32768) % 65536 - 32768

/-- `struct TIMER`: the four register addresses of one timer/counter. -/
structure TIMER where
  TCCRnA : Addr
  TCCRnB : Addr
  OCRnA : Addr
  OCRnB : Addr
deriving DecidableEq, Repr

/-- `struct PIN_REF`: data-direction register, port register and bit mask. -/
structure PIN_REF where
  ddr : Addr
  port : Addr
  mask : Nat
deriving DecidableEq, Repr

/-- `struct MOTOR_REF`: two pins and the timer that drives them. -/
structure MOTOR_REF where
  a : PIN_REF
  b : PIN_REF
  t : TIMER
deriving DecidableEq, Repr

/-- The addresses of the I/O registers `DDRB`, `PORTB`, `DDRD`, `PORTD`, which
the source takes from `<Arduino.h>`. -/
structure Board where
  DDRB : Addr
  PORTB : Addr
  DDRD : Addr
  PORTD : Addr
deriving DecidableEq, Repr

/-- The four I/O registers are objects, so their addresses are not null. -/
def Board.valid (hw : Board) : Prop :=
  hw.DDRB ≠ 0 ∧ hw.PORTB ≠ 0 ∧ hw.DDRD ≠ 0 ∧ hw.PORTD ≠ 0

instance (hw : Board) : Decidable hw.valid := by
  unfold Board.valid; infer_instance

/-- What a driver function leaves behind: its `int` return value, the
reference (passed by C++ reference) and the register file. -/
structure Outcome where
  ret : Int
  ref : MOTOR_REF
  mem : Mem

/-! ## Macros of `MotorController.cpp` -/

/-- `GET_DDR(P)`. -/
def GET_DDR (hw : Board) (P : Int) : Addr :=
  if 2 ≤ P ∧ P ≤ 7 then hw.DDRD else if 8 ≤ P ∧ P ≤ 13 then hw.DDRB else 0

/-- `GET_PORT(P)`. -/
def GET_PORT (hw : Board) (P : Int) : Addr :=
  if 2 ≤ P ∧ P ≤ 7 then hw.PORTD else if 8 ≤ P ∧ P ≤ 13 then hw.PORTB else 0

/-- `GET_MASK(P)`, the `int` value `1 << (P % 8)`. The C remainder truncates
towards zero, so it is negative for the negative pins that are not multiples
of 8; C leaves a shift by a negative count undefined and the model takes `0`
there. Such a pin never resolves, so that mask is never read. -/
def GET_MASK (P : Int) : Int :=
  if 0 ≤ P.tmod 8 then wrapInt (1 * 2 ^ (P.tmod 8).toNat) else 0

/-- `PIN_ON(PORT, M)`: both operands are bytes promoted to `int`. -/
def PIN_ON (port mask : Nat) : Int := ((port ||| mask : Nat) : Int)

/-- `PIN_OFF(PORT, M)`: the complement is taken on the promoted `int`. -/
def PIN_OFF (port mask : Nat) : Int := Int.land (port : Int) (Int.lnot (mask : Int))

/-! ## Validity tests shared by all functions -/

/-- The test `ref.a.ddr == 0 || ref.a.port == 0 || ref.b.ddr == 0 || ref.b.port == 0`. -/
def pinsNull (ref : MOTOR_REF) : Prop :=
  ref.a.ddr = 0 ∨ ref.a.port = 0 ∨ ref.b.ddr = 0 ∨ ref.b.port = 0

/-- The test `ref.t.TCCRnA == 0 || ref.t.TCCRnB == 0 || ref.t.OCRnA == 0 || ref.t.OCRnB == 0`. -/
def timerNull (ref : MOTOR_REF) : Prop :=
  ref.t.TCCRnA = 0 ∨ ref.t.TCCRnB = 0 ∨ ref.t.OCRnA = 0 ∨ ref.t.OCRnB = 0

instance (ref : MOTOR_REF) : Decidable (pinsNull ref) := by
  unfold pinsNull; infer_instance

instance (ref : MOTOR_REF) : Decidable (timerNull ref) := by
  unfold timerNull; infer_instance

/-! ## The driver functions -/

/-- `int motorInit(MOTOR_REF &ref, TIMER timer, int pin_a, int pin_b)`. -/
def motorInit (hw : Board) (ref : MOTOR_REF) (mem : Mem) (timer : TIMER)
    (pin_a pin_b : Int) : Outcome :=
  let ref : MOTOR_REF := { ref with a := { ref.a with ddr := GET_DDR hw pin_a } }
  let ref : MOTOR_REF := { ref with a := { ref.a with port := GET_PORT hw pin_a } }
  let ref : MOTOR_REF := { ref with a := { ref.a with mask := toUint8 (GET_MASK pin_a) } }
  let ref : MOTOR_REF := { ref with b := { ref.b with ddr := GET_DDR hw pin_b } }
  let ref : MOTOR_REF := { ref with b := { ref.b with port := GET_PORT hw pin_b } }
  let ref : MOTOR_REF := { ref with b := { ref.b with mask := toUint8 (GET_MASK pin_b) } }
  let ref : MOTOR_REF := { ref with t := timer }
  if pinsNull ref then ⟨-1, ref, mem⟩ else
  let mem := mem.write ref.a.ddr (PIN_ON (mem ref.a.ddr) ref.a.mask)
  let mem := mem.write ref.b.ddr (PIN_ON (mem ref.b.ddr) ref.b.mask)
  if timerNull ref then ⟨-1, ref, mem⟩ else
  let mem := mem.write ref.t.TCCRnA 0
  let mem := mem.write ref.t.TCCRnB 0
  let mem := mem.write ref.t.TCCRnA (((mem ref.t.TCCRnA ||| 0b11000011 : Nat) : Int))
  let mem := mem.write ref.t.TCCRnB (((mem ref.t.TCCRnB ||| 0b00000100 : Nat) : Int))
  let mem := mem.write ref.t.OCRnA 255
  let mem := mem.write ref.t.OCRnB 255
  ⟨0, ref, mem⟩

/-- `int motorDel(MOTOR_REF &ref)`. -/
def motorDel (ref : MOTOR_REF) (mem : Mem) : Outcome :=
  if pinsNull ref then ⟨-1, ref, mem⟩ else
  if timerNull ref then ⟨-1, ref, mem⟩ else
  let mem := mem.write ref.a.port (PIN_OFF (mem ref.a.port) ref.a.mask)
  let mem := mem.write ref.b.port (PIN_OFF (mem ref.b.port) ref.b.mask)
  let mem := mem.write ref.a.ddr (PIN_OFF (mem ref.a.ddr) ref.a.mask)
  let mem := mem.write ref.b.ddr (PIN_OFF (mem ref.b.ddr) ref.b.mask)
  let mem := mem.write ref.t.TCCRnA 0
  let mem := mem.write ref.t.TCCRnB 0
  let mem := mem.write ref.t.OCRnA 0
  let mem := mem.write ref.t.OCRnB 0
  ⟨0, ref, mem⟩

/-- `int motorASpeed(MOTOR_REF &ref, int s)`. -/
def motorASpeed (ref : MOTOR_REF) (mem : Mem) (s : Int) : Outcome :=
  if pinsNull ref then ⟨-1, ref, mem⟩ else
  if timerNull ref then ⟨-1, ref, mem⟩ else
  let v := wrapInt (255 - s)
  let v := if v ≤ 0 then 1 else if v > 255 then 255 else v
  let mem := mem.write ref.t.OCRnA v
  ⟨0, ref, mem⟩

/-- `int motorBSpeed(MOTOR_REF &ref, int s)`. -/
def motorBSpeed (ref : MOTOR_REF) (mem : Mem) (s : Int) : Outcome :=
  if pinsNull ref then ⟨-1, ref, mem⟩ else
  if timerNull ref then ⟨-1, ref, mem⟩ else
  let v := wrapInt (255 - s)
  let v := if v ≤ 0 then 1 else if v > 255 then 255 else v
  let mem := mem.write ref.t.OCRnB v
  ⟨0, ref, mem⟩

/-- `int motorAStop(MOTOR_REF &ref)`. -/
def motorAStop (ref : MOTOR_REF) (mem : Mem) : Outcome :=
  if pinsNull ref then ⟨-1, ref, mem⟩ else
  if timerNull ref then ⟨-1, ref, mem⟩ else
  let mem := mem.write ref.t.OCRnA 255
  ⟨0, ref, mem⟩

/-- `int motorBStop(MOTOR_REF &ref)`. -/
def motorBStop (ref : MOTOR_REF) (mem : Mem) : Outcome :=
  if pinsNull ref then ⟨-1, ref, mem⟩ else
  if timerNull ref then ⟨-1, ref, mem⟩ else
  let mem := mem.write ref.t.OCRnB 255
  ⟨0, ref, mem⟩

/-! ## Stages of `motorInit` and of the speed functions -/

/-- The `int` that lines 135-137 (and 155-157) leave in `v` for the request `s`. -/
def speedValue (s : Int) : Int :=
  let v := wrapInt (255 - s)
  if v ≤ 0 then 1 else if v > 255 then 255 else v

/-- The reference `motorInit` stores, whatever it returns. -/
def initRef (hw : Board) (timer : TIMER) (pin_a pin_b : Int) : MOTOR_REF :=
  { a := { ddr := GET_DDR hw pin_a, port := GET_PORT hw pin_a, mask := toUint8 (GET_MASK pin_a) }
    b := { ddr := GET_DDR hw pin_b, port := GET_PORT hw pin_b, mask := toUint8 (GET_MASK pin_b) }
    t := timer }

/-- The register file after lines 38-39 of `motorInit`: both pins made outputs. -/
def pinsOut (r : MOTOR_REF) (mem : Mem) : Mem :=
  let mem := mem.write r.a.ddr (PIN_ON (mem r.a.ddr) r.a.mask)
  let mem := mem.write r.b.ddr (PIN_ON (mem r.b.ddr) r.b.mask)
  mem

/-- The register file after lines 47-92 of `motorInit`: the timer programmed. -/
def timerSetup (t : TIMER) (mem : Mem) : Mem :=
  let mem := mem.write t.TCCRnA 0
  let mem := mem.write t.TCCRnB 0
  let mem := mem.write t.TCCRnA (((mem t.TCCRnA ||| 0b11000011 : Nat) : Int))
  let mem := mem.write t.TCCRnB (((mem t.TCCRnB ||| 0b00000100 : Nat) : Int))
  let mem := mem.write t.OCRnA 255
  let mem := mem.write t.OCRnB 255
  mem

/-- One line `*q = PIN_ON(*q, k)` of `motorInit`. -/
def setStep (m : Mem) (q : Addr) (k : Nat) : Mem := m.write q (PIN_ON (m q) k)

/-- One line `*q = PIN_OFF(*q, k)` of `motorDel`. -/
def clearStep (m : Mem) (q : Addr) (k : Nat) : Mem := m.write q (PIN_OFF (m q) k)

/-- The register file after lines 109-112 of `motorDel`: both pins unset. -/
def pinsOff (r : MOTOR_REF) (mem : Mem) : Mem :=
  let mem := mem.write r.a.port (PIN_OFF (mem r.a.port) r.a.mask)
  let mem := mem.write r.b.port (PIN_OFF (mem r.b.port) r.b.mask)
  let mem := mem.write r.a.ddr (PIN_OFF (mem r.a.ddr) r.a.mask)
  let mem := mem.write r.b.ddr (PIN_OFF (mem r.b.ddr) r.b.mask)
  mem

/-- The register file after lines 115-118 of `motorDel`: the timer turned off. -/
def timerOff (t : TIMER) (mem : Mem) : Mem :=
  let mem := mem.write t.TCCRnA 0
  let mem := mem.write t.TCCRnB 0
  let mem := mem.write t.OCRnA 0
  let mem := mem.write t.OCRnB 0
  mem

/-! ## Vocabulary of the specification -/

/-- The four I/O registers are four different objects. -/
def Board.distinct (hw : Board) : Prop :=
  hw.DDRB ≠ hw.PORTB ∧ hw.DDRB ≠ hw.DDRD ∧ hw.DDRB ≠ hw.PORTD ∧
  hw.PORTB ≠ hw.DDRD ∧ hw.PORTB ≠ hw.PORTD ∧ hw.DDRD ≠ hw.PORTD

instance (hw : Board) : Decidable hw.distinct := by
  unfold Board.distinct; infer_instance

/-- A fully valid reference: all four pin-register addresses and all four
timer-register addresses are non-null. -/
def MOTOR_REF.fullyValid (ref : MOTOR_REF) : Prop :=
  ¬ pinsNull ref ∧ ¬ timerNull ref

instance (ref : MOTOR_REF) : Decidable ref.fullyValid := by
  unfold MOTOR_REF.fullyValid; infer_instance

/-- The four register addresses of a timer are pairwise distinct. -/
def TIMER.distinct (t : TIMER) : Prop :=
  t.TCCRnA ≠ t.TCCRnB ∧ t.TCCRnA ≠ t.OCRnA ∧ t.TCCRnA ≠ t.OCRnB ∧
  t.TCCRnB ≠ t.OCRnA ∧ t.TCCRnB ≠ t.OCRnB ∧ t.OCRnA ≠ t.OCRnB

instance (t : TIMER) : Decidable t.distinct := by
  unfold TIMER.distinct; infer_instance

/-- No register of the timer is the register at address `p`. -/
def TIMER.avoids (t : TIMER) (p : Addr) : Prop :=
  t.TCCRnA ≠ p ∧ t.TCCRnB ≠ p ∧ t.OCRnA ≠ p ∧ t.OCRnB ≠ p

instance (t : TIMER) (p : Addr) : Decidable (t.avoids p) := by
  unfold TIMER.avoids; infer_instance

/-- No address of the timer is null. -/
def TIMER.nonNull (t : TIMER) : Prop :=
  t.TCCRnA ≠ 0 ∧ t.TCCRnB ≠ 0 ∧ t.OCRnA ≠ 0 ∧ t.OCRnB ≠ 0

instance (t : TIMER) : Decidable t.nonNull := by
  unfold TIMER.nonNull; infer_instance

/-- A supported pin identifier: `2..13`. -/
def supportedPin (P : Int) : Prop := 2 ≤ P ∧ P ≤ 13

instance (P : Int) : Decidable (supportedPin P) := by
  unfold supportedPin; infer_instance

/-! ## A concrete platform: the ATmega328P register map -/

/-- The I/O register addresses of the ATmega328P (data-space addresses of
`DDRB`, `PORTB`, `DDRD`, `PORTD`). -/
def atmega328p : Board := { DDRB := 0x24, PORTB := 0x25, DDRD := 0x2A, PORTD := 0x2B }

/-- `T0_MOTOR = { &TCCR0A, &TCCR0B, &OCR0A, &OCR0B }` on the ATmega328P. -/
def T0_MOTOR : TIMER := { TCCRnA := 0x44, TCCRnB := 0x45, OCRnA := 0x47, OCRnB := 0x48 }

/-- `T2_MOTOR = { &TCCR2A, &TCCR2B, &OCR2A, &OCR2B }` on the ATmega328P. -/
def T2_MOTOR : TIMER := { TCCRnA := 0xB0, TCCRnB := 0xB1, OCRnA := 0xB3, OCRnB := 0xB4 }

/-- A register file with every byte zero. -/
def zeroMem : Mem := fun _ => 0

/-- A reference that holds no address yet. -/
def nullRef : MOTOR_REF := ⟨⟨0, 0, 0⟩, ⟨0, 0, 0⟩, ⟨0, 0, 0, 0⟩⟩

/-- The reference `motorInit` builds for pins 9 and 10 on timer 0. -/
def unoRef : MOTOR_REF :=
  ⟨⟨0x24, 0x25, 2⟩, ⟨0x24, 0x25, 4⟩, T0_MOTOR⟩

/-- A timer whose second control register is given the address of `DDRB`. -/
def aliasTimer : TIMER := { TCCRnA := 0x44, TCCRnB := 0x24, OCRnA := 0x47, OCRnB := 0x48 }

/-- Timer 0 with a null first control register. -/
def brokenTimer : TIMER := { TCCRnA := 0, TCCRnB := 0x45, OCRnA := 0x47, OCRnB := 0x48 }

/-- The reference for pins 9 and 10 with an unset OCRnB address. -/
def halfRef : MOTOR_REF :=
  ⟨⟨0x24, 0x25, 2⟩, ⟨0x24, 0x25, 4⟩, { TCCRnA := 0x44, TCCRnB := 0x45, OCRnA := 0x47, OCRnB := 0 }⟩

/-- A register file with every byte `0xFF`. -/
def onesMem : Mem := fun _ => 255

/-! ## Basic facts about the register file and the validity tests -/

theorem toUint8_lt (v : Int) : toUint8 v < 256 := by
  unfold toUint8; omega

theorem toUint8_of_byte (v : Int) (h0 : 0 ≤ v) (h1 : v ≤ 255) : (toUint8 v : Int) = v := by
  unfold toUint8; omega

theorem Mem.write_same (m : Mem) (p : Addr) (v : Int) : (m.write p v) p = toUint8 v := by
  simp [Mem.write]

theorem Mem.write_other (m : Mem) (p a : Addr) (v : Int) (h : a ≠ p) :
    (m.write p v) a = m a := by
  simp [Mem.write, h]

theorem speedValue_range (s : Int) : 1 ≤ speedValue s ∧ speedValue s ≤ 255 := by
  unfold speedValue
  simp only
  split_ifs <;> omega

theorem speedValue_mid (s : Int) (h1 : 1 ≤ s) (h2 : s ≤ 254) : speedValue s = 255 - s := by
  unfold speedValue wrapInt
  simp only
  split_ifs <;> omega

theorem speedValue_low (s : Int) (h1 : -32512 ≤ s) (h2 : s ≤ 0) : speedValue s = 255 := by
  unfold speedValue wrapInt
  simp only
  split_ifs <;> omega

theorem speedValue_high (s : Int) (h1 : 255 ≤ s) (h2 : s ≤ 32767) : speedValue s = 1 := by
  unfold speedValue wrapInt
  simp only
  split_ifs <;> omega

theorem motorASpeed_valid (ref : MOTOR_REF) (mem : Mem) (s : Int) (hv : ref.fullyValid) :
    motorASpeed ref mem s = ⟨0, ref, mem.write ref.t.OCRnA (speedValue s)⟩ := by
  unfold motorASpeed
  rw [if_neg hv.1, if_neg hv.2]
  rfl

theorem motorBSpeed_valid (ref : MOTOR_REF) (mem : Mem) (s : Int) (hv : ref.fullyValid) :
    motorBSpeed ref mem s = ⟨0, ref, mem.write ref.t.OCRnB (speedValue s)⟩ := by
  unfold motorBSpeed
  rw [if_neg hv.1, if_neg hv.2]
  rfl

theorem motorAStop_valid (ref : MOTOR_REF) (mem : Mem) (hv : ref.fullyValid) :
    motorAStop ref mem = ⟨0, ref, mem.write ref.t.OCRnA 255⟩ := by
  simp [motorAStop, hv.1, hv.2]

theorem motorBStop_valid (ref : MOTOR_REF) (mem : Mem) (hv : ref.fullyValid) :
    motorBStop ref mem = ⟨0, ref, mem.write ref.t.OCRnB 255⟩ := by
  simp [motorBStop, hv.1, hv.2]

/-- The byte a speed call stores, as an `int`: the clamped value itself. -/
theorem stored_speed (m : Mem) (p : Addr) (s : Int) :
    ((m.write p (speedValue s) p : Nat) : Int) = speedValue s := by
  rw [Mem.write_same]
  exact toUint8_of_byte _ (by have := speedValue_range s; omega) (speedValue_range s).2

theorem toUint8_natCast (n : Nat) : toUint8 (n : Int) = n % 256 := by
  unfold toUint8; omega

theorem testBit_of_lt_256 (k i : Nat) (hk : k < 256) (h : k.testBit i = true) : i < 8 := by
  by_contra hi
  have : k < 2 ^ i := lt_of_lt_of_le hk (by
    have : 2 ^ 8 ≤ 2 ^ i := Nat.pow_le_pow_right (by decide) (by omega)
    simpa using this)
  rw [Nat.testBit_eq_false_of_lt this] at h
  exact Bool.noConfusion h

/-- Setting a pin's bit: after `PIN_ON` with mask `m`, a byte-wide bit pattern
`k` is wholly set as soon as each of its bits is in `m` or was set before. -/
theorem PIN_ON_keeps (x m k : Nat) (hk : k < 256)
    (h : ∀ i, k.testBit i = true → m.testBit i = true ∨ x.testBit i = true) :
    toUint8 (PIN_ON x m) &&& k = k := by
  unfold PIN_ON
  rw [toUint8_natCast]
  apply Nat.eq_of_testBit_eq
  intro i
  rw [Nat.testBit_and, show (256 : Nat) = 2 ^ 8 from rfl, Nat.testBit_mod_two_pow,
    Nat.testBit_or]
  cases hki : k.testBit i
  · simp
  · have hi := testBit_of_lt_256 k i hk hki
    rcases h i hki with h1 | h1 <;> simp [h1, hi]

theorem bits_of_and_eq (x k i : Nat) (h : x &&& k = k) (hk : k.testBit i = true) :
    x.testBit i = true := by
  have := congrArg (fun n => Nat.testBit n i) h
  simp only [Nat.testBit_and, hk, Bool.and_true] at this
  exact this

theorem GET_DDR_supported (hw : Board) (P : Int) (hv : hw.valid) (h : supportedPin P) :
    GET_DDR hw P ≠ 0 := by
  unfold GET_DDR
  obtain ⟨h1, h2⟩ := h
  obtain ⟨hb, -, hd, -⟩ := hv
  split_ifs with c1 c2
  · exact hd
  · exact hb
  · omega

theorem GET_PORT_supported (hw : Board) (P : Int) (hv : hw.valid) (h : supportedPin P) :
    GET_PORT hw P ≠ 0 := by
  unfold GET_PORT
  obtain ⟨h1, h2⟩ := h
  obtain ⟨-, hb, -, hd⟩ := hv
  split_ifs with c1 c2
  · exact hd
  · exact hb
  · omega

theorem GET_DDR_unsupported (hw : Board) (P : Int) (h : ¬ supportedPin P) :
    GET_DDR hw P = 0 := by
  unfold GET_DDR
  unfold supportedPin at h
  split_ifs with c1 c2
  · omega
  · omega
  · rfl


/-- `motorInit` as its three exits. -/
theorem motorInit_eq (hw : Board) (ref : MOTOR_REF) (mem : Mem) (timer : TIMER)
    (pin_a pin_b : Int) :
    motorInit hw ref mem timer pin_a pin_b =
      if pinsNull (initRef hw timer pin_a pin_b) then
        ⟨-1, initRef hw timer pin_a pin_b, mem⟩
      else if timerNull (initRef hw timer pin_a pin_b) then
        ⟨-1, initRef hw timer pin_a pin_b, pinsOut (initRef hw timer pin_a pin_b) mem⟩
      else
        ⟨0, initRef hw timer pin_a pin_b,
          timerSetup timer (pinsOut (initRef hw timer pin_a pin_b) mem)⟩ := by
  rfl

theorem initRef_pins_ok (hw : Board) (timer : TIMER) (pin_a pin_b : Int) (hv : hw.valid)
    (ha : supportedPin pin_a) (hb : supportedPin pin_b) :
    ¬ pinsNull (initRef hw timer pin_a pin_b) := by
  simp [pinsNull, initRef, GET_DDR_supported hw _ hv ha, GET_DDR_supported hw _ hv hb,
    GET_PORT_supported hw _ hv ha, GET_PORT_supported hw _ hv hb]

theorem initRef_timer_ok (hw : Board) (timer : TIMER) (pin_a pin_b : Int)
    (ht : timer.nonNull) : ¬ timerNull (initRef hw timer pin_a pin_b) := by
  obtain ⟨h1, h2, h3, h4⟩ := ht
  simp [timerNull, initRef, h1, h2, h3, h4]

theorem initRef_pins_bad (hw : Board) (timer : TIMER) (pin_a pin_b : Int)
    (h : ¬ supportedPin pin_a ∨ ¬ supportedPin pin_b) :
    pinsNull (initRef hw timer pin_a pin_b) := by
  rcases h with h | h
  · exact Or.inl (GET_DDR_unsupported hw pin_a h)
  · exact Or.inr (Or.inr (Or.inl (GET_DDR_unsupported hw pin_b h)))

theorem timerSetup_other (t : TIMER) (mem : Mem) (a : Addr) (h : t.avoids a) :
    timerSetup t mem a = mem a := by
  obtain ⟨h1, h2, h3, h4⟩ := h
  simp [timerSetup, Mem.write, Ne.symm h1, Ne.symm h2, Ne.symm h3, Ne.symm h4]

theorem timerSetup_OCRnB (t : TIMER) (mem : Mem) : timerSetup t mem t.OCRnB = 255 := by
  simp [timerSetup, Mem.write, toUint8]

theorem timerSetup_OCRnA (t : TIMER) (mem : Mem) : timerSetup t mem t.OCRnA = 255 := by
  simp only [timerSetup, Mem.write]
  split_ifs <;> simp [toUint8]

theorem pinsOut_a (r : MOTOR_REF) (mem : Mem) (ha : r.a.mask < 256) :
    pinsOut r mem r.a.ddr &&& r.a.mask = r.a.mask := by
  have h0 : toUint8 (PIN_ON (mem r.a.ddr) r.a.mask) &&& r.a.mask = r.a.mask :=
    PIN_ON_keeps _ _ _ ha (fun _ hj => Or.inl hj)
  by_cases h : r.a.ddr = r.b.ddr
  · simp only [pinsOut, Mem.write, ← h, if_true]
    exact PIN_ON_keeps _ _ _ ha (fun i hi => Or.inr (bits_of_and_eq _ _ i h0 hi))
  · simp only [pinsOut, Mem.write, if_neg h, if_true]
    exact h0

theorem pinsOut_b (r : MOTOR_REF) (mem : Mem) (hb : r.b.mask < 256) :
    pinsOut r mem r.b.ddr &&& r.b.mask = r.b.mask := by
  simp only [pinsOut, Mem.write, if_true]
  exact PIN_ON_keeps _ _ _ hb (fun _ hj => Or.inl hj)

theorem timerSetup_TCCRnA (t : TIMER) (mem : Mem) (hd : t.distinct) :
    timerSetup t mem t.TCCRnA = 0b11000011 := by
  obtain ⟨h1, h2, h3, -, -, -⟩ := hd
  simp [timerSetup, Mem.write, h1, h2, h3, toUint8]

theorem timerSetup_TCCRnB (t : TIMER) (mem : Mem) (hd : t.distinct) :
    timerSetup t mem t.TCCRnB = 0b00000100 := by
  obtain ⟨h1, -, -, h4, h5, -⟩ := hd
  simp [timerSetup, Mem.write, Ne.symm h1, h4, h5, toUint8]

theorem pinsOut_other (r : MOTOR_REF) (mem : Mem) (a : Addr) (h1 : a ≠ r.a.ddr)
    (h2 : a ≠ r.b.ddr) : pinsOut r mem a = mem a := by
  simp [pinsOut, Mem.write, h1, h2]

theorem mask_supported (P : Int) (h : supportedPin P) :
    toUint8 (GET_MASK P) = 2 ^ (P % 8).toNat := by
  obtain ⟨h1, h2⟩ := h
  interval_cases P <;> decide

theorem motorInit_ok (hw : Board) (ref : MOTOR_REF) (mem : Mem) (timer : TIMER)
    (pin_a pin_b : Int) (hv : hw.valid) (ht : timer.nonNull)
    (ha : supportedPin pin_a) (hb : supportedPin pin_b) :
    motorInit hw ref mem timer pin_a pin_b =
      ⟨0, initRef hw timer pin_a pin_b,
        timerSetup timer (pinsOut (initRef hw timer pin_a pin_b) mem)⟩ := by
  rw [motorInit_eq, if_neg (initRef_pins_ok hw timer pin_a pin_b hv ha hb),
    if_neg (initRef_timer_ok hw timer pin_a pin_b ht)]

theorem motorDel_invalid (ref : MOTOR_REF) (mem : Mem) (h : ¬ ref.fullyValid) :
    motorDel ref mem = ⟨-1, ref, mem⟩ := by
  unfold MOTOR_REF.fullyValid at h
  unfold motorDel
  by_cases hp : pinsNull ref
  · rw [if_pos hp]
  · rw [if_neg hp, if_pos (by by_contra ht; exact h ⟨hp, ht⟩)]

theorem motorASpeed_invalid (ref : MOTOR_REF) (mem : Mem) (s : Int) (h : ¬ ref.fullyValid) :
    motorASpeed ref mem s = ⟨-1, ref, mem⟩ := by
  unfold MOTOR_REF.fullyValid at h
  unfold motorASpeed
  by_cases hp : pinsNull ref
  · rw [if_pos hp]
  · rw [if_neg hp, if_pos (by by_contra ht; exact h ⟨hp, ht⟩)]

theorem motorBSpeed_invalid (ref : MOTOR_REF) (mem : Mem) (s : Int) (h : ¬ ref.fullyValid) :
    motorBSpeed ref mem s = ⟨-1, ref, mem⟩ := by
  unfold MOTOR_REF.fullyValid at h
  unfold motorBSpeed
  by_cases hp : pinsNull ref
  · rw [if_pos hp]
  · rw [if_neg hp, if_pos (by by_contra ht; exact h ⟨hp, ht⟩)]

theorem motorAStop_invalid (ref : MOTOR_REF) (mem : Mem) (h : ¬ ref.fullyValid) :
    motorAStop ref mem = ⟨-1, ref, mem⟩ := by
  unfold MOTOR_REF.fullyValid at h
  unfold motorAStop
  by_cases hp : pinsNull ref
  · rw [if_pos hp]
  · rw [if_neg hp, if_pos (by by_contra ht; exact h ⟨hp, ht⟩)]

theorem motorBStop_invalid (ref : MOTOR_REF) (mem : Mem) (h : ¬ ref.fullyValid) :
    motorBStop ref mem = ⟨-1, ref, mem⟩ := by
  unfold MOTOR_REF.fullyValid at h
  unfold motorBStop
  by_cases hp : pinsNull ref
  · rw [if_pos hp]
  · rw [if_neg hp, if_pos (by by_contra ht; exact h ⟨hp, ht⟩)]

/-! ## Bit-level facts about `PIN_ON`, `PIN_OFF` and the stages of `motorDel` -/

theorem toUint8_testBit_natCast (n i : Nat) :
    (toUint8 (n : Int)).testBit i = (decide (i < 8) && n.testBit i) := by
  rw [toUint8_natCast, show (256 : Nat) = 2 ^ 8 from rfl, Nat.testBit_mod_two_pow]

theorem PIN_OFF_eq (x m : Nat) : PIN_OFF x m = ((Nat.ldiff x m : Nat) : Int) := rfl

theorem toUint8_high_bit (v : Int) (i : Nat) (hi : 8 ≤ i) : (toUint8 v).testBit i = false := by
  apply Nat.testBit_lt_two_pow
  have h1 := toUint8_lt v
  have h2 : 2 ^ 8 ≤ 2 ^ i := Nat.pow_le_pow_right (by decide) hi
  have h3 : (2 : Nat) ^ 8 = 256 := by decide
  omega

theorem and_eq_zero_of_bits (x k : Nat)
    (h : ∀ i, k.testBit i = true → x.testBit i = false) : x &&& k = 0 := by
  apply Nat.eq_of_testBit_eq
  intro i
  rw [Nat.testBit_and, Nat.zero_testBit]
  cases hk : k.testBit i
  · simp
  · simp [h i hk]

theorem setStep_bit (m : Mem) (q p : Addr) (k i : Nat) (hi : i < 8) :
    (setStep m q k p).testBit i =
      ((m p).testBit i || (decide (p = q) && k.testBit i)) := by
  unfold setStep
  by_cases h : p = q
  · subst h
    rw [Mem.write_same]
    unfold PIN_ON
    rw [toUint8_testBit_natCast, Nat.testBit_or]
    simp [hi]
  · rw [Mem.write_other _ _ _ _ h]
    simp [h]

theorem setStep_other (m : Mem) (q p : Addr) (k : Nat) (h : p ≠ q) :
    setStep m q k p = m p :=
  Mem.write_other _ _ _ _ h

theorem clearStep_bit (m : Mem) (q p : Addr) (k i : Nat) (hi : i < 8) :
    (clearStep m q k p).testBit i =
      ((m p).testBit i && !(decide (p = q) && k.testBit i)) := by
  unfold clearStep
  by_cases h : p = q
  · subst h
    rw [Mem.write_same, PIN_OFF_eq, toUint8_testBit_natCast, Nat.testBit_ldiff]
    simp [hi]
  · rw [Mem.write_other _ _ _ _ h]
    simp [h]

/-- A bit that is clear stays clear through a `PIN_OFF` line. -/
theorem clearStep_stays_clear (m : Mem) (q p : Addr) (k i : Nat)
    (h : (m p).testBit i = false) : (clearStep m q k p).testBit i = false := by
  unfold clearStep
  by_cases hpq : p = q
  · subst hpq
    rw [Mem.write_same, PIN_OFF_eq, toUint8_testBit_natCast, Nat.testBit_ldiff, h]
    simp
  · rw [Mem.write_other _ _ _ _ hpq]
    exact h

/-- A `PIN_OFF` line clears every bit of its mask in the register it writes. -/
theorem clearStep_clears (m : Mem) (q : Addr) (k i : Nat) (h : k.testBit i = true) :
    (clearStep m q k q).testBit i = false := by
  unfold clearStep
  rw [Mem.write_same, PIN_OFF_eq, toUint8_testBit_natCast, Nat.testBit_ldiff, h]
  simp

theorem pinsOut_steps (r : MOTOR_REF) (mem : Mem) :
    pinsOut r mem = setStep (setStep mem r.a.ddr r.a.mask) r.b.ddr r.b.mask := rfl

theorem pinsOff_steps (r : MOTOR_REF) (mem : Mem) :
    pinsOff r mem =
      clearStep (clearStep (clearStep (clearStep mem r.a.port r.a.mask) r.b.port r.b.mask)
        r.a.ddr r.a.mask) r.b.ddr r.b.mask := rfl

theorem motorDel_valid (ref : MOTOR_REF) (mem : Mem) (hv : ref.fullyValid) :
    motorDel ref mem = ⟨0, ref, timerOff ref.t (pinsOff ref mem)⟩ := by
  unfold motorDel
  rw [if_neg hv.1, if_neg hv.2]
  rfl

theorem timerOff_other (t : TIMER) (mem : Mem) (a : Addr) (h : t.avoids a) :
    timerOff t mem a = mem a := by
  obtain ⟨h1, h2, h3, h4⟩ := h
  simp [timerOff, Mem.write, Ne.symm h1, Ne.symm h2, Ne.symm h3, Ne.symm h4]

theorem timerOff_regs (t : TIMER) (mem : Mem) :
    timerOff t mem t.TCCRnA = 0 ∧ timerOff t mem t.TCCRnB = 0 ∧
    timerOff t mem t.OCRnA = 0 ∧ timerOff t mem t.OCRnB = 0 := by
  simp only [timerOff, Mem.write]
  refine ⟨?_, ?_, ?_, ?_⟩ <;> split_ifs <;> simp [toUint8]

/-- A `motorInit` that returns 0 took the last exit. -/
theorem motorInit_ret_zero (hw : Board) (ref : MOTOR_REF) (mem : Mem) (timer : TIMER)
    (pin_a pin_b : Int) (h : (motorInit hw ref mem timer pin_a pin_b).ret = 0) :
    ¬ pinsNull (initRef hw timer pin_a pin_b) ∧ ¬ timerNull (initRef hw timer pin_a pin_b) ∧
    motorInit hw ref mem timer pin_a pin_b =
      ⟨0, initRef hw timer pin_a pin_b,
        timerSetup timer (pinsOut (initRef hw timer pin_a pin_b) mem)⟩ := by
  rw [motorInit_eq] at h ⊢
  by_cases h1 : pinsNull (initRef hw timer pin_a pin_b)
  · rw [if_pos h1] at h
    exact absurd h (show ¬ ((-1 : Int) = 0) by decide)
  · by_cases h2 : timerNull (initRef hw timer pin_a pin_b)
    · rw [if_neg h1, if_pos h2] at h
      exact absurd h (show ¬ ((-1 : Int) = 0) by decide)
    · rw [if_neg h1, if_neg h2]
      exact ⟨h1, h2, rfl⟩

/-- A `motorInit` that returns -1 took one of the first two exits. -/
theorem motorInit_ret_fail (hw : Board) (ref : MOTOR_REF) (mem : Mem) (timer : TIMER)
    (pin_a pin_b : Int) (h : (motorInit hw ref mem timer pin_a pin_b).ret = -1) :
    ¬ (initRef hw timer pin_a pin_b).fullyValid := by
  rw [motorInit_eq] at h
  intro hv
  rw [if_neg hv.1, if_neg hv.2] at h
  exact absurd h (show ¬ ((0 : Int) = -1) by decide)

theorem motorInit_ref (hw : Board) (ref : MOTOR_REF) (mem : Mem) (timer : TIMER)
    (pin_a pin_b : Int) :
    (motorInit hw ref mem timer pin_a pin_b).ref = initRef hw timer pin_a pin_b := by
  rw [motorInit_eq]
  split_ifs <;> rfl

theorem GET_PORT_unsupported (hw : Board) (P : Int) (h : ¬ supportedPin P) :
    GET_PORT hw P = 0 := by
  unfold GET_PORT
  unfold supportedPin at h
  split_ifs with c1 c2
  · omega
  · omega
  · rfl

theorem GET_DDR_cases (hw : Board) (P : Int) :
    GET_DDR hw P = hw.DDRD ∨ GET_DDR hw P = hw.DDRB ∨ GET_DDR hw P = 0 := by
  unfold GET_DDR
  split_ifs <;> simp

/-! ## Set speed -/

/-- C1: on a fully valid reference and a level in `1..254`, `motorASpeed`
returns 0 and leaves `255 - level` in OCRnA, a value in `1..255`; `motorBSpeed`
does the same with OCRnB. -/
theorem speed_mid_range_writes_complement (ref : MOTOR_REF) (mem : Mem) (level : Int)
    (hv : ref.fullyValid) (h1 : 1 ≤ level) (h2 : level ≤ 254) :
    ((motorASpeed ref mem level).ret = 0 ∧
      (((motorASpeed ref mem level).mem ref.t.OCRnA : Nat) : Int) = 255 - level ∧
      1 ≤ (motorASpeed ref mem level).mem ref.t.OCRnA ∧
      (motorASpeed ref mem level).mem ref.t.OCRnA ≤ 255) ∧
    ((motorBSpeed ref mem level).ret = 0 ∧
      (((motorBSpeed ref mem level).mem ref.t.OCRnB : Nat) : Int) = 255 - level ∧
      1 ≤ (motorBSpeed ref mem level).mem ref.t.OCRnB ∧
      (motorBSpeed ref mem level).mem ref.t.OCRnB ≤ 255) := by
  have hA := stored_speed mem ref.t.OCRnA level
  have hB := stored_speed mem ref.t.OCRnB level
  have hm := speedValue_mid level h1 h2
  rw [motorASpeed_valid ref mem level hv, motorBSpeed_valid ref mem level hv]
  simp only
  refine ⟨⟨trivial, ?_, ?_, ?_⟩, ⟨trivial, ?_, ?_, ?_⟩⟩ <;> omega

/-- Witness for C1: timer 0 with pins 9 and 10, level 200 gives 55. -/
theorem speed_mid_range_writes_complement_witness :
    unoRef.fullyValid ∧ (1 : Int) ≤ 200 ∧ (200 : Int) ≤ 254 ∧
    (motorASpeed unoRef zeroMem 200).ret = 0 ∧
    (((motorASpeed unoRef zeroMem 200).mem unoRef.t.OCRnA : Nat) : Int) = 255 - 200 :=
  ⟨by decide, by decide, by decide,
    (speed_mid_range_writes_complement unoRef zeroMem 200 (by decide) (by decide)
      (by decide)).1.1,
    (speed_mid_range_writes_complement unoRef zeroMem 200 (by decide) (by decide)
      (by decide)).1.2.1⟩

/-- C2 as stated fails: level 0 leaves 255 (not 1) in the compare register,
and level 255 leaves 1 (not 255), on either channel. -/
theorem speed_clamp_not_as_stated :
    unoRef.fullyValid ∧
    (motorASpeed unoRef zeroMem 0).mem unoRef.t.OCRnA = 255 ∧
    (motorASpeed unoRef zeroMem 0).mem unoRef.t.OCRnA ≠ 1 ∧
    (motorASpeed unoRef zeroMem 255).mem unoRef.t.OCRnA = 1 ∧
    (motorASpeed unoRef zeroMem 255).mem unoRef.t.OCRnA ≠ 255 ∧
    (motorBSpeed unoRef zeroMem 0).mem unoRef.t.OCRnB = 255 ∧
    (motorBSpeed unoRef zeroMem 255).mem unoRef.t.OCRnB = 1 := by
  decide

/-- C2, amended: on a fully valid reference, a level in `-32512..0` leaves 255
in the channel's compare register and a level in `255..32767` leaves 1. -/
theorem speed_clamp_ends (ref : MOTOR_REF) (mem : Mem) (level : Int)
    (hv : ref.fullyValid) :
    (-32512 ≤ level ∧ level ≤ 0 →
      (motorASpeed ref mem level).mem ref.t.OCRnA = 255 ∧
      (motorBSpeed ref mem level).mem ref.t.OCRnB = 255) ∧
    (255 ≤ level ∧ level ≤ 32767 →
      (motorASpeed ref mem level).mem ref.t.OCRnA = 1 ∧
      (motorBSpeed ref mem level).mem ref.t.OCRnB = 1) := by
  have hA := stored_speed mem ref.t.OCRnA level
  have hB := stored_speed mem ref.t.OCRnB level
  rw [motorASpeed_valid ref mem level hv, motorBSpeed_valid ref mem level hv]
  simp only
  constructor
  · rintro ⟨h1, h2⟩
    have := speedValue_low level h1 h2
    constructor <;> omega
  · rintro ⟨h1, h2⟩
    have := speedValue_high level h1 h2
    constructor <;> omega

/-- Witness for the amended C2: level -5 on channel A gives 255, level 300
on channel B gives 1. -/
theorem speed_clamp_ends_witness :
    unoRef.fullyValid ∧
    (motorASpeed unoRef zeroMem (-5)).mem unoRef.t.OCRnA = 255 ∧
    (motorBSpeed unoRef zeroMem 300).mem unoRef.t.OCRnB = 1 :=
  ⟨by decide,
    ((speed_clamp_ends unoRef zeroMem (-5) (by decide)).1 ⟨by decide, by decide⟩).1,
    ((speed_clamp_ends unoRef zeroMem 300 (by decide)).2 ⟨by decide, by decide⟩).2⟩

/-- C3: on a fully valid reference and for every level, the byte stored in the
channel's compare register lies in `1..255`; it is never 0. -/
theorem speed_compare_never_zero (ref : MOTOR_REF) (mem : Mem) (level : Int)
    (hv : ref.fullyValid) :
    (1 ≤ (motorASpeed ref mem level).mem ref.t.OCRnA ∧
      (motorASpeed ref mem level).mem ref.t.OCRnA ≤ 255 ∧
      (motorASpeed ref mem level).mem ref.t.OCRnA ≠ 0) ∧
    (1 ≤ (motorBSpeed ref mem level).mem ref.t.OCRnB ∧
      (motorBSpeed ref mem level).mem ref.t.OCRnB ≤ 255 ∧
      (motorBSpeed ref mem level).mem ref.t.OCRnB ≠ 0) := by
  have hA := stored_speed mem ref.t.OCRnA level
  have hB := stored_speed mem ref.t.OCRnB level
  have hr := speedValue_range level
  rw [motorASpeed_valid ref mem level hv, motorBSpeed_valid ref mem level hv]
  simp only
  refine ⟨⟨?_, ?_, ?_⟩, ⟨?_, ?_, ?_⟩⟩ <;> omega

/-- Witness for C3: the least 16-bit `int`, on timer 0 with pins 9 and 10. -/
theorem speed_compare_never_zero_witness :
    unoRef.fullyValid ∧
    1 ≤ (motorASpeed unoRef zeroMem (-32768)).mem unoRef.t.OCRnA ∧
    (motorASpeed unoRef zeroMem (-32768)).mem unoRef.t.OCRnA ≤ 255 :=
  ⟨by decide,
    (speed_compare_never_zero unoRef zeroMem (-32768) (by decide)).1.1,
    (speed_compare_never_zero unoRef zeroMem (-32768) (by decide)).1.2.1⟩

/-! ## Initialize -/

/-- C4 as stated fails: a timer with four non-null, pairwise distinct
addresses whose TCCRnB is the address of DDRB, with pins 8 and 9. `motorInit`
returns 0, yet pin 8's mask bit (bit 0 of DDRB) is clear afterwards. -/
theorem init_aliased_timer_loses_output_bit :
    aliasTimer.nonNull ∧ aliasTimer.distinct ∧ supportedPin 8 ∧ supportedPin 9 ∧
    (motorInit atmega328p nullRef zeroMem aliasTimer 8 9).ret = 0 ∧
    (motorInit atmega328p nullRef zeroMem aliasTimer 8 9).ref.a.ddr = atmega328p.DDRB ∧
    (motorInit atmega328p nullRef zeroMem aliasTimer 8 9).ref.a.mask = 1 ∧
    (motorInit atmega328p nullRef zeroMem aliasTimer 8 9).mem atmega328p.DDRB = 4 ∧
    (motorInit atmega328p nullRef zeroMem aliasTimer 8 9).mem
        (motorInit atmega328p nullRef zeroMem aliasTimer 8 9).ref.a.ddr &&&
      (motorInit atmega328p nullRef zeroMem aliasTimer 8 9).ref.a.mask ≠
      (motorInit atmega328p nullRef zeroMem aliasTimer 8 9).ref.a.mask := by
  decide

/-- C4, amended: for every timer with four non-null addresses, none of them
the data-direction register of pin_a or pin_b, and every pin_a, pin_b in
`2..13` (same bank or equal included), `motorInit` returns 0 and afterwards
OCRnA = 255, OCRnB = 255, each pin's mask is `1 << (pin % 8)` and the bit it
selects is set in that pin's data-direction register. -/
theorem init_stops_motors_and_sets_outputs (hw : Board) (ref : MOTOR_REF) (mem : Mem)
    (timer : TIMER) (pin_a pin_b : Int) (hv : hw.valid) (ht : timer.nonNull)
    (ha : supportedPin pin_a) (hb : supportedPin pin_b)
    (hda : timer.avoids (GET_DDR hw pin_a)) (hdb : timer.avoids (GET_DDR hw pin_b)) :
    (motorInit hw ref mem timer pin_a pin_b).ret = 0 ∧
    (motorInit hw ref mem timer pin_a pin_b).mem timer.OCRnA = 255 ∧
    (motorInit hw ref mem timer pin_a pin_b).mem timer.OCRnB = 255 ∧
    (motorInit hw ref mem timer pin_a pin_b).ref.a.mask = 2 ^ (pin_a % 8).toNat ∧
    (motorInit hw ref mem timer pin_a pin_b).ref.b.mask = 2 ^ (pin_b % 8).toNat ∧
    (motorInit hw ref mem timer pin_a pin_b).mem
        (motorInit hw ref mem timer pin_a pin_b).ref.a.ddr &&&
      (motorInit hw ref mem timer pin_a pin_b).ref.a.mask =
      (motorInit hw ref mem timer pin_a pin_b).ref.a.mask ∧
    (motorInit hw ref mem timer pin_a pin_b).mem
        (motorInit hw ref mem timer pin_a pin_b).ref.b.ddr &&&
      (motorInit hw ref mem timer pin_a pin_b).ref.b.mask =
      (motorInit hw ref mem timer pin_a pin_b).ref.b.mask := by
  rw [motorInit_ok hw ref mem timer pin_a pin_b hv ht ha hb]
  refine ⟨rfl, timerSetup_OCRnA _ _, timerSetup_OCRnB _ _, mask_supported pin_a ha,
    mask_supported pin_b hb, ?_, ?_⟩
  · show timerSetup timer (pinsOut (initRef hw timer pin_a pin_b) mem)
        (initRef hw timer pin_a pin_b).a.ddr &&& (initRef hw timer pin_a pin_b).a.mask =
      (initRef hw timer pin_a pin_b).a.mask
    rw [timerSetup_other timer (pinsOut (initRef hw timer pin_a pin_b) mem)
      (initRef hw timer pin_a pin_b).a.ddr hda]
    exact pinsOut_a _ mem (toUint8_lt _)
  · show timerSetup timer (pinsOut (initRef hw timer pin_a pin_b) mem)
        (initRef hw timer pin_a pin_b).b.ddr &&& (initRef hw timer pin_a pin_b).b.mask =
      (initRef hw timer pin_a pin_b).b.mask
    rw [timerSetup_other timer (pinsOut (initRef hw timer pin_a pin_b) mem)
      (initRef hw timer pin_a pin_b).b.ddr hdb]
    exact pinsOut_b _ mem (toUint8_lt _)

/-- Witness for the amended C4: timer 2 with pins 3 and 12 on the ATmega328P. -/
theorem init_stops_motors_and_sets_outputs_witness :
    atmega328p.valid ∧ T2_MOTOR.nonNull ∧ supportedPin 3 ∧ supportedPin 12 ∧
    T2_MOTOR.avoids (GET_DDR atmega328p 3) ∧ T2_MOTOR.avoids (GET_DDR atmega328p 12) ∧
    (motorInit atmega328p nullRef zeroMem T2_MOTOR 3 12).ret = 0 ∧
    (motorInit atmega328p nullRef zeroMem T2_MOTOR 3 12).mem T2_MOTOR.OCRnA = 255 ∧
    (motorInit atmega328p nullRef zeroMem T2_MOTOR 3 12).mem T2_MOTOR.OCRnB = 255 :=
  have h := init_stops_motors_and_sets_outputs atmega328p nullRef zeroMem T2_MOTOR 3 12
    (by decide) (by decide) (by decide) (by decide) (by decide) (by decide)
  ⟨by decide, by decide, by decide, by decide, by decide, by decide, h.1, h.2.1, h.2.2.1⟩

/-- C5: when pin_a or pin_b is outside `2..7` and `8..13`, `motorInit` returns
-1 and the register file after the call is the one before it. -/
theorem init_unsupported_pin_fails_clean (hw : Board) (ref : MOTOR_REF) (mem : Mem)
    (timer : TIMER) (pin_a pin_b : Int)
    (h : ¬ supportedPin pin_a ∨ ¬ supportedPin pin_b) :
    (motorInit hw ref mem timer pin_a pin_b).ret = -1 ∧
    (motorInit hw ref mem timer pin_a pin_b).mem = mem := by
  rw [motorInit_eq, if_pos (initRef_pins_bad hw timer pin_a pin_b h)]
  exact ⟨rfl, rfl⟩

/-- Witness for C5: pin 1 with pin 9 on timer 0. -/
theorem init_unsupported_pin_fails_clean_witness :
    (¬ supportedPin 1 ∨ ¬ supportedPin 9) ∧
    (motorInit atmega328p nullRef zeroMem T0_MOTOR 1 9).ret = -1 ∧
    (motorInit atmega328p nullRef zeroMem T0_MOTOR 1 9).mem = zeroMem :=
  ⟨by decide,
    init_unsupported_pin_fails_clean atmega328p nullRef zeroMem T0_MOTOR 1 9 (by decide)⟩

/-- C6, the code at the failing input: with a null TCCRnA and the valid pins 9
and 10, `motorInit` returns -1 after DDRB has gone from 0 to 6. -/
theorem init_null_timer_still_writes_ddr :
    brokenTimer.TCCRnA = 0 ∧ supportedPin 9 ∧ supportedPin 10 ∧
    (motorInit atmega328p nullRef zeroMem brokenTimer 9 10).ret = -1 ∧
    zeroMem atmega328p.DDRB = 0 ∧
    (motorInit atmega328p nullRef zeroMem brokenTimer 9 10).mem atmega328p.DDRB = 6 ∧
    (motorInit atmega328p nullRef zeroMem brokenTimer 9 10).mem ≠ zeroMem := by
  refine ⟨by decide, by decide, by decide, by decide, by decide, by decide, ?_⟩
  intro h
  have h6 : (motorInit atmega328p nullRef zeroMem brokenTimer 9 10).mem atmega328p.DDRB = 6 := by
    decide
  rw [h] at h6
  exact absurd h6 (by decide)

/-- C7, the code at the failing input: after a successful `motorInit` on timer
0 with pins 9 and 10, TCCRnA is `0b11000011`: COMnA = TCCRnA[7:6] is 3 (binary
11) but COMnB = TCCRnA[5:4] is 0. -/
theorem init_leaves_channel_b_disconnected :
    (motorInit atmega328p nullRef zeroMem T0_MOTOR 9 10).ret = 0 ∧
    (motorInit atmega328p nullRef zeroMem T0_MOTOR 9 10).mem T0_MOTOR.TCCRnA = 0b11000011 ∧
    (motorInit atmega328p nullRef zeroMem T0_MOTOR 9 10).mem T0_MOTOR.TCCRnA / 64 % 4 = 3 ∧
    (motorInit atmega328p nullRef zeroMem T0_MOTOR 9 10).mem T0_MOTOR.TCCRnA / 16 % 4 = 0 := by
  decide

/-! ## Stop and the frame of the runtime operations -/

/-- C8: on a fully valid reference whose two compare registers are distinct,
`motorAStop` returns 0, sets OCRnA to 255 and leaves OCRnB and every other
register as it was; `motorBStop` does the same with the channels exchanged. -/
theorem stop_sets_own_channel_only (ref : MOTOR_REF) (mem : Mem)
    (hv : ref.fullyValid) (hd : ref.t.OCRnA ≠ ref.t.OCRnB) :
    ((motorAStop ref mem).ret = 0 ∧
      (motorAStop ref mem).mem ref.t.OCRnA = 255 ∧
      (motorAStop ref mem).mem ref.t.OCRnB = mem ref.t.OCRnB ∧
      ∀ a, a ≠ ref.t.OCRnA → (motorAStop ref mem).mem a = mem a) ∧
    ((motorBStop ref mem).ret = 0 ∧
      (motorBStop ref mem).mem ref.t.OCRnB = 255 ∧
      (motorBStop ref mem).mem ref.t.OCRnA = mem ref.t.OCRnA ∧
      ∀ a, a ≠ ref.t.OCRnB → (motorBStop ref mem).mem a = mem a) := by
  rw [motorAStop_valid ref mem hv, motorBStop_valid ref mem hv]
  refine ⟨⟨rfl, ?_, ?_, ?_⟩, ⟨rfl, ?_, ?_, ?_⟩⟩
  · show mem.write ref.t.OCRnA 255 ref.t.OCRnA = 255
    rw [Mem.write_same]; decide
  · exact Mem.write_other mem _ _ _ (Ne.symm hd)
  · intro a ha
    exact Mem.write_other mem _ _ _ ha
  · show mem.write ref.t.OCRnB 255 ref.t.OCRnB = 255
    rw [Mem.write_same]; decide
  · exact Mem.write_other mem _ _ _ hd
  · intro a ha
    exact Mem.write_other mem _ _ _ ha

/-- Witness for C8: timer 0 with pins 9 and 10, every register zero before. -/
theorem stop_sets_own_channel_only_witness :
    unoRef.fullyValid ∧ unoRef.t.OCRnA ≠ unoRef.t.OCRnB ∧
    (motorAStop unoRef zeroMem).ret = 0 ∧
    (motorAStop unoRef zeroMem).mem unoRef.t.OCRnA = 255 ∧
    (motorAStop unoRef zeroMem).mem unoRef.t.OCRnB = zeroMem unoRef.t.OCRnB :=
  have h := stop_sets_own_channel_only unoRef zeroMem (by decide) (by decide)
  ⟨by decide, by decide, h.1.1, h.1.2.1, h.1.2.2.1⟩

/-- C9: for every level, `motorASpeed` changes no register other than OCRnA
and `motorBSpeed` changes no register other than OCRnB: the byte at every other
address (control registers, the other compare register, data-direction and
port registers) is the one found before the call. -/
theorem speed_touches_own_compare_only (ref : MOTOR_REF) (mem : Mem) (level : Int)
    (a : Addr) :
    (a ≠ ref.t.OCRnA → (motorASpeed ref mem level).mem a = mem a) ∧
    (a ≠ ref.t.OCRnB → (motorBSpeed ref mem level).mem a = mem a) := by
  by_cases hv : ref.fullyValid
  · rw [motorASpeed_valid ref mem level hv, motorBSpeed_valid ref mem level hv]
    exact ⟨fun h => Mem.write_other mem _ _ _ h, fun h => Mem.write_other mem _ _ _ h⟩
  · rw [motorASpeed_invalid ref mem level hv, motorBSpeed_invalid ref mem level hv]
    exact ⟨fun _ => rfl, fun _ => rfl⟩

/-- Witness for C9: `motorASpeed` at level 200 leaves OCRnB as it was, and
`motorBSpeed` leaves TCCRnA as it was. -/
theorem speed_touches_own_compare_only_witness :
    unoRef.fullyValid ∧ unoRef.t.OCRnB ≠ unoRef.t.OCRnA ∧
    unoRef.t.TCCRnA ≠ unoRef.t.OCRnB ∧
    (motorASpeed unoRef zeroMem 200).mem unoRef.t.OCRnB = zeroMem unoRef.t.OCRnB ∧
    (motorBSpeed unoRef zeroMem 200).mem unoRef.t.TCCRnA = zeroMem unoRef.t.TCCRnA :=
  ⟨by decide, by decide, by decide,
    (speed_touches_own_compare_only unoRef zeroMem 200 unoRef.t.OCRnB).1 (by decide),
    (speed_touches_own_compare_only unoRef zeroMem 200 unoRef.t.TCCRnA).2 (by decide)⟩

/-! ## Invalid references -/

/-- C10: when at least one of the eight addresses of the reference is null,
each of `motorDel`, `motorASpeed`, `motorBSpeed`, `motorAStop` and `motorBStop`
returns -1 and leaves the whole register file as it was. -/
theorem invalid_reference_rejected (ref : MOTOR_REF) (mem : Mem) (s : Int)
    (h : ref.a.ddr = 0 ∨ ref.a.port = 0 ∨ ref.b.ddr = 0 ∨ ref.b.port = 0 ∨
      ref.t.TCCRnA = 0 ∨ ref.t.TCCRnB = 0 ∨ ref.t.OCRnA = 0 ∨ ref.t.OCRnB = 0) :
    ((motorDel ref mem).ret = -1 ∧ (motorDel ref mem).mem = mem) ∧
    ((motorASpeed ref mem s).ret = -1 ∧ (motorASpeed ref mem s).mem = mem) ∧
    ((motorBSpeed ref mem s).ret = -1 ∧ (motorBSpeed ref mem s).mem = mem) ∧
    ((motorAStop ref mem).ret = -1 ∧ (motorAStop ref mem).mem = mem) ∧
    ((motorBStop ref mem).ret = -1 ∧ (motorBStop ref mem).mem = mem) := by
  have hv : ¬ ref.fullyValid := by
    unfold MOTOR_REF.fullyValid pinsNull timerNull
    tauto
  rw [motorDel_invalid ref mem hv, motorASpeed_invalid ref mem s hv,
    motorBSpeed_invalid ref mem s hv, motorAStop_invalid ref mem hv,
    motorBStop_invalid ref mem hv]
  exact ⟨⟨rfl, rfl⟩, ⟨rfl, rfl⟩, ⟨rfl, rfl⟩, ⟨rfl, rfl⟩, ⟨rfl, rfl⟩⟩

/-- Witness for C10: a reference whose only null address is OCRnB. -/
theorem invalid_reference_rejected_witness :
    halfRef.t.OCRnB = 0 ∧
    ((motorDel halfRef zeroMem).ret = -1 ∧ (motorDel halfRef zeroMem).mem = zeroMem) ∧
    ((motorASpeed halfRef zeroMem 200).ret = -1 ∧
      (motorASpeed halfRef zeroMem 200).mem = zeroMem) :=
  have h := invalid_reference_rejected halfRef zeroMem 200
    (Or.inr (Or.inr (Or.inr (Or.inr (Or.inr (Or.inr (Or.inr rfl)))))))
  ⟨rfl, h.1, h.2.1⟩



/-! ## Release -/

/-- C12: on a fully valid reference whose timer registers are none of the
pins' port and data-direction registers, `motorDel` returns 0 and afterwards
each pin's mask bit is 0 in that pin's port and data-direction register, every
bit (0..7) of those registers that no pin's mask selects there is as before,
and TCCRnA, TCCRnB, OCRnA and OCRnB are 0. -/
theorem release_clears_pins_and_timer (ref : MOTOR_REF) (mem : Mem) (hv : ref.fullyValid)
    (hap : ref.t.avoids ref.a.port) (hbp : ref.t.avoids ref.b.port)
    (had : ref.t.avoids ref.a.ddr) (hbd : ref.t.avoids ref.b.ddr) :
    (motorDel ref mem).ret = 0 ∧
    ((motorDel ref mem).mem ref.a.port &&& ref.a.mask = 0 ∧
      (motorDel ref mem).mem ref.a.ddr &&& ref.a.mask = 0 ∧
      (motorDel ref mem).mem ref.b.port &&& ref.b.mask = 0 ∧
      (motorDel ref mem).mem ref.b.ddr &&& ref.b.mask = 0) ∧
    (∀ (p : Addr) (i : Nat),
      p = ref.a.port ∨ p = ref.b.port ∨ p = ref.a.ddr ∨ p = ref.b.ddr → i < 8 →
      ¬ ((p = ref.a.port ∨ p = ref.a.ddr) ∧ ref.a.mask.testBit i = true) →
      ¬ ((p = ref.b.port ∨ p = ref.b.ddr) ∧ ref.b.mask.testBit i = true) →
      ((motorDel ref mem).mem p).testBit i = (mem p).testBit i) ∧
    ((motorDel ref mem).mem ref.t.TCCRnA = 0 ∧ (motorDel ref mem).mem ref.t.TCCRnB = 0 ∧
      (motorDel ref mem).mem ref.t.OCRnA = 0 ∧ (motorDel ref mem).mem ref.t.OCRnB = 0) := by
  rw [motorDel_valid ref mem hv]
  refine ⟨rfl, ⟨?_, ?_, ?_, ?_⟩, ?_, timerOff_regs _ _⟩
  · show timerOff ref.t (pinsOff ref mem) ref.a.port &&& ref.a.mask = 0
    rw [timerOff_other _ _ _ hap, pinsOff_steps]
    exact and_eq_zero_of_bits _ _ (fun i hi => clearStep_stays_clear _ _ _ _ _
      (clearStep_stays_clear _ _ _ _ _ (clearStep_stays_clear _ _ _ _ _
        (clearStep_clears _ _ _ _ hi))))
  · show timerOff ref.t (pinsOff ref mem) ref.a.ddr &&& ref.a.mask = 0
    rw [timerOff_other _ _ _ had, pinsOff_steps]
    exact and_eq_zero_of_bits _ _ (fun i hi => clearStep_stays_clear _ _ _ _ _
      (clearStep_clears _ _ _ _ hi))
  · show timerOff ref.t (pinsOff ref mem) ref.b.port &&& ref.b.mask = 0
    rw [timerOff_other _ _ _ hbp, pinsOff_steps]
    exact and_eq_zero_of_bits _ _ (fun i hi => clearStep_stays_clear _ _ _ _ _
      (clearStep_stays_clear _ _ _ _ _ (clearStep_clears _ _ _ _ hi)))
  · show timerOff ref.t (pinsOff ref mem) ref.b.ddr &&& ref.b.mask = 0
    rw [timerOff_other _ _ _ hbd, pinsOff_steps]
    exact and_eq_zero_of_bits _ _ (fun i hi => clearStep_clears _ _ _ _ hi)
  · intro p i hp hi ha hb
    have hav : ref.t.avoids p := by
      rcases hp with h | h | h | h <;> rw [h] <;> assumption
    show (timerOff ref.t (pinsOff ref mem) p).testBit i = (mem p).testBit i
    rw [timerOff_other _ _ _ hav, pinsOff_steps, clearStep_bit _ _ _ _ _ hi,
      clearStep_bit _ _ _ _ _ hi, clearStep_bit _ _ _ _ _ hi, clearStep_bit _ _ _ _ _ hi]
    have e1 : (decide (p = ref.a.port) && ref.a.mask.testBit i) = false := by
      by_contra hc
      simp only [Bool.not_eq_false, Bool.and_eq_true, decide_eq_true_eq] at hc
      exact ha ⟨Or.inl hc.1, hc.2⟩
    have e2 : (decide (p = ref.a.ddr) && ref.a.mask.testBit i) = false := by
      by_contra hc
      simp only [Bool.not_eq_false, Bool.and_eq_true, decide_eq_true_eq] at hc
      exact ha ⟨Or.inr hc.1, hc.2⟩
    have e3 : (decide (p = ref.b.port) && ref.b.mask.testBit i) = false := by
      by_contra hc
      simp only [Bool.not_eq_false, Bool.and_eq_true, decide_eq_true_eq] at hc
      exact hb ⟨Or.inl hc.1, hc.2⟩
    have e4 : (decide (p = ref.b.ddr) && ref.b.mask.testBit i) = false := by
      by_contra hc
      simp only [Bool.not_eq_false, Bool.and_eq_true, decide_eq_true_eq] at hc
      exact hb ⟨Or.inr hc.1, hc.2⟩
    rw [e1, e2, e3, e4]
    simp

/-- Witness for C12: pins 9 and 10 on timer 0, every register `0xFF` before:
DDRB and PORTB keep all bits but 1 and 2. -/
theorem release_clears_pins_and_timer_witness :
    unoRef.fullyValid ∧ unoRef.t.avoids unoRef.a.port ∧ unoRef.t.avoids unoRef.a.ddr ∧
    (motorDel unoRef onesMem).ret = 0 ∧
    (motorDel unoRef onesMem).mem unoRef.a.port &&& unoRef.a.mask = 0 ∧
    (motorDel unoRef onesMem).mem unoRef.t.OCRnA = 0 :=
  have h := release_clears_pins_and_timer unoRef onesMem (by decide) (by decide) (by decide)
    (by decide) (by decide)
  ⟨by decide, by decide, by decide, h.1, h.2.1.1, h.2.2.2.2.2.1⟩



/-! ## Pin resolution -/

/-- C13: for every integer pin identifier, the addresses `motorInit` stores are
those of `GET_DDR` and `GET_PORT`: (DDRD, PORTD) for `2..7`, (DDRB, PORTB) for
`8..13`, (null, null) for every other identifier; the ddr address is null
exactly when the port address is. -/
theorem pin_resolution_total (hw : Board) (ref : MOTOR_REF) (mem : Mem) (timer : TIMER)
    (P Q : Int) (hv : hw.valid) :
    ((motorInit hw ref mem timer P Q).ref.a.ddr = GET_DDR hw P ∧
      (motorInit hw ref mem timer P Q).ref.a.port = GET_PORT hw P ∧
      (motorInit hw ref mem timer Q P).ref.b.ddr = GET_DDR hw P ∧
      (motorInit hw ref mem timer Q P).ref.b.port = GET_PORT hw P) ∧
    (2 ≤ P ∧ P ≤ 7 → GET_DDR hw P = hw.DDRD ∧ GET_PORT hw P = hw.PORTD) ∧
    (8 ≤ P ∧ P ≤ 13 → GET_DDR hw P = hw.DDRB ∧ GET_PORT hw P = hw.PORTB) ∧
    (¬ (2 ≤ P ∧ P ≤ 13) → GET_DDR hw P = 0 ∧ GET_PORT hw P = 0) ∧
    (GET_DDR hw P = 0 ↔ GET_PORT hw P = 0) := by
  refine ⟨?_, ?_, ?_, ?_, ?_⟩
  · rw [motorInit_ref, motorInit_ref]
    exact ⟨rfl, rfl, rfl, rfl⟩
  · intro h
    simp [GET_DDR, GET_PORT, h]
  · intro h
    have h2 : ¬ (2 ≤ P ∧ P ≤ 7) := by omega
    simp [GET_DDR, GET_PORT, h, h2]
  · intro h
    exact ⟨GET_DDR_unsupported hw P h, GET_PORT_unsupported hw P h⟩
  · by_cases hs : supportedPin P
    · constructor
      · intro h0
        exact absurd h0 (GET_DDR_supported hw P hv hs)
      · intro h0
        exact absurd h0 (GET_PORT_supported hw P hv hs)
    · rw [GET_DDR_unsupported hw P hs, GET_PORT_unsupported hw P hs]

/-- Witness for C13: pin 5 resolves to bank D, pin 14 to nothing. -/
theorem pin_resolution_total_witness :
    atmega328p.valid ∧
    (motorInit atmega328p nullRef zeroMem T0_MOTOR 5 14).ref.a.ddr = GET_DDR atmega328p 5 ∧
    GET_DDR atmega328p 5 = atmega328p.DDRD ∧ GET_PORT atmega328p 5 = atmega328p.PORTD ∧
    GET_DDR atmega328p 14 = 0 ∧ GET_PORT atmega328p 14 = 0 :=
  have h5 := pin_resolution_total atmega328p nullRef zeroMem T0_MOTOR 5 14 (by decide)
  have h14 := pin_resolution_total atmega328p nullRef zeroMem T0_MOTOR 14 5 (by decide)
  ⟨by decide, h5.1.1, (h5.2.1 (by decide)).1, (h5.2.1 (by decide)).2,
    (h14.2.2.2.1 (by decide)).1, (h14.2.2.2.1 (by decide)).2⟩

/-- C14: for every pin identifier in `2..13`, the mask `motorInit` stores (as
pin a or as pin b) is `1 << (P mod 8)`, a byte with exactly one bit set: bit
`P` for pins `2..7` and bit `P - 8` for pins `8..13`. -/
theorem mask_is_single_bit (hw : Board) (ref : MOTOR_REF) (mem : Mem) (timer : TIMER)
    (P Q : Int) (h : supportedPin P) :
    (motorInit hw ref mem timer P Q).ref.a.mask = 1 <<< (P % 8).toNat ∧
    (motorInit hw ref mem timer Q P).ref.b.mask = 1 <<< (P % 8).toNat ∧
    (motorInit hw ref mem timer P Q).ref.a.mask < 256 ∧
    (∀ i : Nat, ((motorInit hw ref mem timer P Q).ref.a.mask).testBit i = true ↔
      i = (P % 8).toNat) ∧
    (∀ i : Nat, ((motorInit hw ref mem timer Q P).ref.b.mask).testBit i = true ↔
      i = (P % 8).toNat) ∧
    (2 ≤ P ∧ P ≤ 7 → ((P % 8).toNat : Int) = P) ∧
    (8 ≤ P ∧ P ≤ 13 → ((P % 8).toNat : Int) = P - 8) := by
  have hm := mask_supported P h
  have ha : (motorInit hw ref mem timer P Q).ref.a.mask = 2 ^ (P % 8).toNat := by
    rw [motorInit_ref]; exact hm
  have hb : (motorInit hw ref mem timer Q P).ref.b.mask = 2 ^ (P % 8).toNat := by
    rw [motorInit_ref]; exact hm
  have hbit : ∀ i : Nat, (2 ^ (P % 8).toNat).testBit i = true ↔ i = (P % 8).toNat := by
    intro i
    rw [Nat.testBit_two_pow, decide_eq_true_eq]
    exact eq_comm
  refine ⟨?_, ?_, ?_, ?_, ?_, ?_, ?_⟩
  · rw [ha, Nat.one_shiftLeft]
  · rw [hb, Nat.one_shiftLeft]
  · rw [motorInit_ref]; exact toUint8_lt _
  · rw [ha]; exact hbit
  · rw [hb]; exact hbit
  · intro h2; omega
  · intro h2; omega

/-- Witness for C14: pin 11 gives the mask `0b00001000`. -/
theorem mask_is_single_bit_witness :
    supportedPin 11 ∧
    (motorInit atmega328p nullRef zeroMem T0_MOTOR 11 3).ref.a.mask = 1 <<< 3 ∧
    (motorInit atmega328p nullRef zeroMem T0_MOTOR 3 11).ref.b.mask = 1 <<< 3 :=
  have h := mask_is_single_bit atmega328p nullRef zeroMem T0_MOTOR 11 3 (by decide)
  ⟨by decide, h.1, h.2.1⟩



/-! ## Failed and successful initialization -/

/-- C16: whenever `motorInit` returns -1, whatever the timer, the pins and the
reference held before, the reference it leaves has a null address, and every
later `motorDel`, `motorASpeed`, `motorBSpeed`, `motorAStop` and `motorBStop`
on it returns -1 and leaves the register file as it found it. -/
theorem failed_init_leaves_invalid_reference (hw : Board) (ref : MOTOR_REF) (mem : Mem)
    (timer : TIMER) (pin_a pin_b : Int)
    (h : (motorInit hw ref mem timer pin_a pin_b).ret = -1) :
    ((motorInit hw ref mem timer pin_a pin_b).ref.a.ddr = 0 ∨
      (motorInit hw ref mem timer pin_a pin_b).ref.a.port = 0 ∨
      (motorInit hw ref mem timer pin_a pin_b).ref.b.ddr = 0 ∨
      (motorInit hw ref mem timer pin_a pin_b).ref.b.port = 0 ∨
      (motorInit hw ref mem timer pin_a pin_b).ref.t.TCCRnA = 0 ∨
      (motorInit hw ref mem timer pin_a pin_b).ref.t.TCCRnB = 0 ∨
      (motorInit hw ref mem timer pin_a pin_b).ref.t.OCRnA = 0 ∨
      (motorInit hw ref mem timer pin_a pin_b).ref.t.OCRnB = 0) ∧
    ∀ (mem2 : Mem) (s : Int),
      ((motorDel (motorInit hw ref mem timer pin_a pin_b).ref mem2).ret = -1 ∧
        (motorDel (motorInit hw ref mem timer pin_a pin_b).ref mem2).mem = mem2) ∧
      ((motorASpeed (motorInit hw ref mem timer pin_a pin_b).ref mem2 s).ret = -1 ∧
        (motorASpeed (motorInit hw ref mem timer pin_a pin_b).ref mem2 s).mem = mem2) ∧
      ((motorBSpeed (motorInit hw ref mem timer pin_a pin_b).ref mem2 s).ret = -1 ∧
        (motorBSpeed (motorInit hw ref mem timer pin_a pin_b).ref mem2 s).mem = mem2) ∧
      ((motorAStop (motorInit hw ref mem timer pin_a pin_b).ref mem2).ret = -1 ∧
        (motorAStop (motorInit hw ref mem timer pin_a pin_b).ref mem2).mem = mem2) ∧
      ((motorBStop (motorInit hw ref mem timer pin_a pin_b).ref mem2).ret = -1 ∧
        (motorBStop (motorInit hw ref mem timer pin_a pin_b).ref mem2).mem = mem2) := by
  have hv := motorInit_ret_fail hw ref mem timer pin_a pin_b h
  rw [motorInit_ref]
  constructor
  · unfold MOTOR_REF.fullyValid pinsNull timerNull at hv
    tauto
  · intro mem2 s
    rw [motorDel_invalid _ mem2 hv, motorASpeed_invalid _ mem2 s hv,
      motorBSpeed_invalid _ mem2 s hv, motorAStop_invalid _ mem2 hv,
      motorBStop_invalid _ mem2 hv]
    exact ⟨⟨rfl, rfl⟩, ⟨rfl, rfl⟩, ⟨rfl, rfl⟩, ⟨rfl, rfl⟩, ⟨rfl, rfl⟩⟩

/-- Witness for C16: an Active reference re-initialized with pin 1. -/
theorem failed_init_leaves_invalid_reference_witness :
    unoRef.fullyValid ∧
    (motorInit atmega328p unoRef zeroMem T0_MOTOR 1 9).ret = -1 ∧
    (motorAStop (motorInit atmega328p unoRef zeroMem T0_MOTOR 1 9).ref onesMem).ret = -1 ∧
    (motorAStop (motorInit atmega328p unoRef zeroMem T0_MOTOR 1 9).ref onesMem).mem = onesMem :=
  have h := failed_init_leaves_invalid_reference atmega328p unoRef zeroMem T0_MOTOR 1 9
    (by decide)
  ⟨by decide, by decide, ((h.2 onesMem 0).2.2.2.1).1, ((h.2 onesMem 0).2.2.2.1).2⟩

/-- C17: after every `motorInit` that returns 0 on a timer with pairwise
distinct addresses, whatever the registers held before, TCCRnA is `0b11000011`
and TCCRnB is `0b00000100`: WGM = 011 (TCCRnA[1:0] = 11, TCCRnB[3] = 0) and
CS = TCCRnB[2:0] = 100. -/
theorem init_control_registers_fixed (hw : Board) (ref : MOTOR_REF) (mem : Mem)
    (timer : TIMER) (pin_a pin_b : Int)
    (h : (motorInit hw ref mem timer pin_a pin_b).ret = 0) (hd : timer.distinct) :
    (motorInit hw ref mem timer pin_a pin_b).mem timer.TCCRnA = 0b11000011 ∧
    (motorInit hw ref mem timer pin_a pin_b).mem timer.TCCRnB = 0b00000100 ∧
    (motorInit hw ref mem timer pin_a pin_b).mem timer.TCCRnA % 4 = 0b11 ∧
    (motorInit hw ref mem timer pin_a pin_b).mem timer.TCCRnB / 8 % 2 = 0 ∧
    (motorInit hw ref mem timer pin_a pin_b).mem timer.TCCRnB % 8 = 0b100 := by
  rw [(motorInit_ret_zero hw ref mem timer pin_a pin_b h).2.2]
  have hA := timerSetup_TCCRnA timer (pinsOut (initRef hw timer pin_a pin_b) mem) hd
  have hB := timerSetup_TCCRnB timer (pinsOut (initRef hw timer pin_a pin_b) mem) hd
  simp only [hA, hB]
  decide

/-- Witness for C17: timer 2 with pins 3 and 12, every register `0xFF` before. -/
theorem init_control_registers_fixed_witness :
    (motorInit atmega328p nullRef onesMem T2_MOTOR 3 12).ret = 0 ∧ T2_MOTOR.distinct ∧
    (motorInit atmega328p nullRef onesMem T2_MOTOR 3 12).mem T2_MOTOR.TCCRnA = 0b11000011 ∧
    (motorInit atmega328p nullRef onesMem T2_MOTOR 3 12).mem T2_MOTOR.TCCRnB = 0b00000100 :=
  have h := init_control_registers_fixed atmega328p nullRef onesMem T2_MOTOR 3 12
    (by decide) (by decide)
  ⟨by decide, by decide, h.1, h.2.1⟩

/-- C18: for every `motorInit` that returns 0 with the timer registers none of
DDRB, DDRD, PORTB, PORTD, every bit (0..7) of DDRB and of DDRD that is not
selected there by a pin's mask keeps its value, and PORTB and PORTD hold what
they held before. -/
theorem init_frame_on_pin_banks (hw : Board) (ref : MOTOR_REF) (mem : Mem)
    (timer : TIMER) (pin_a pin_b : Int) (hdist : hw.distinct)
    (h : (motorInit hw ref mem timer pin_a pin_b).ret = 0)
    (h1 : timer.avoids hw.DDRB) (h2 : timer.avoids hw.DDRD)
    (h3 : timer.avoids hw.PORTB) (h4 : timer.avoids hw.PORTD) :
    (∀ (p : Addr) (i : Nat), p = hw.DDRB ∨ p = hw.DDRD → i < 8 →
      ¬ (p = (motorInit hw ref mem timer pin_a pin_b).ref.a.ddr ∧
          (motorInit hw ref mem timer pin_a pin_b).ref.a.mask.testBit i = true) →
      ¬ (p = (motorInit hw ref mem timer pin_a pin_b).ref.b.ddr ∧
          (motorInit hw ref mem timer pin_a pin_b).ref.b.mask.testBit i = true) →
      ((motorInit hw ref mem timer pin_a pin_b).mem p).testBit i = (mem p).testBit i) ∧
    (motorInit hw ref mem timer pin_a pin_b).mem hw.PORTB = mem hw.PORTB ∧
    (motorInit hw ref mem timer pin_a pin_b).mem hw.PORTD = mem hw.PORTD := by
  obtain ⟨hp, -, he⟩ := motorInit_ret_zero hw ref mem timer pin_a pin_b h
  obtain ⟨d1, d2, d3, d4, d5, d6⟩ := hdist
  have ha0 : GET_DDR hw pin_a ≠ 0 := fun e => hp (Or.inl e)
  have hb0 : GET_DDR hw pin_b ≠ 0 := fun e => hp (Or.inr (Or.inr (Or.inl e)))
  have hportB : ∀ P : Int, GET_DDR hw P ≠ 0 → hw.PORTB ≠ GET_DDR hw P := by
    intro P h0 e
    rcases GET_DDR_cases hw P with c | c | c
    · exact d4 (e.trans c)
    · exact d1 (e.trans c).symm
    · exact h0 c
  have hportD : ∀ P : Int, GET_DDR hw P ≠ 0 → hw.PORTD ≠ GET_DDR hw P := by
    intro P h0 e
    rcases GET_DDR_cases hw P with c | c | c
    · exact d6 (e.trans c).symm
    · exact d3 (e.trans c).symm
    · exact h0 c
  rw [he]
  refine ⟨?_, ?_, ?_⟩
  · intro p i hpb hi na nb
    have hav : timer.avoids p := by
      rcases hpb with e | e <;> rw [e] <;> assumption
    show (timerSetup timer (pinsOut (initRef hw timer pin_a pin_b) mem) p).testBit i = _
    rw [timerSetup_other _ _ _ hav, pinsOut_steps, setStep_bit _ _ _ _ _ hi,
      setStep_bit _ _ _ _ _ hi]
    have e1 : (decide (p = (initRef hw timer pin_a pin_b).a.ddr) &&
        (initRef hw timer pin_a pin_b).a.mask.testBit i) = false := by
      by_contra hc
      simp only [Bool.not_eq_false, Bool.and_eq_true, decide_eq_true_eq] at hc
      exact na hc
    have e2 : (decide (p = (initRef hw timer pin_a pin_b).b.ddr) &&
        (initRef hw timer pin_a pin_b).b.mask.testBit i) = false := by
      by_contra hc
      simp only [Bool.not_eq_false, Bool.and_eq_true, decide_eq_true_eq] at hc
      exact nb hc
    rw [e1, e2]
    simp
  · show timerSetup timer (pinsOut (initRef hw timer pin_a pin_b) mem) hw.PORTB = _
    rw [timerSetup_other _ _ _ h3]
    exact pinsOut_other _ mem _ (hportB pin_a ha0) (hportB pin_b hb0)
  · show timerSetup timer (pinsOut (initRef hw timer pin_a pin_b) mem) hw.PORTD = _
    rw [timerSetup_other _ _ _ h4]
    exact pinsOut_other _ mem _ (hportD pin_a ha0) (hportD pin_b hb0)

/-- Witness for C18: timer 0 with pins 9 and 10 leaves PORTB and PORTD alone. -/
theorem init_frame_on_pin_banks_witness :
    atmega328p.distinct ∧ (motorInit atmega328p nullRef onesMem T0_MOTOR 9 10).ret = 0 ∧
    (motorInit atmega328p nullRef onesMem T0_MOTOR 9 10).mem atmega328p.PORTB =
      onesMem atmega328p.PORTB ∧
    (motorInit atmega328p nullRef onesMem T0_MOTOR 9 10).mem atmega328p.PORTD =
      onesMem atmega328p.PORTD :=
  have h := init_frame_on_pin_banks atmega328p nullRef onesMem T0_MOTOR 9 10 (by decide)
    (by decide) (by decide) (by decide) (by decide) (by decide)
  ⟨by decide, by decide, h.2.1, h.2.2⟩



/-! ## The lowest levels: overflow of `255 - s` -/

/-- As long as `255 - s` fits the 16-bit `int`, a non-positive level is a stop:
for `-32512 ≤ level ≤ 0` the speed call and the stop call of a channel return
the same value, reference and register file. -/
theorem speed_nonpositive_is_stop_in_range (ref : MOTOR_REF) (mem : Mem) (level : Int)
    (h1 : -32512 ≤ level) (h2 : level ≤ 0) :
    motorASpeed ref mem level = motorAStop ref mem ∧
    motorBSpeed ref mem level = motorBStop ref mem := by
  by_cases hv : ref.fullyValid
  · rw [motorASpeed_valid ref mem level hv, motorBSpeed_valid ref mem level hv,
      motorAStop_valid ref mem hv, motorBStop_valid ref mem hv,
      speedValue_low level h1 h2]
    exact ⟨rfl, rfl⟩
  · rw [motorASpeed_invalid ref mem level hv, motorBSpeed_invalid ref mem level hv,
      motorAStop_invalid ref mem hv, motorBStop_invalid ref mem hv]
    exact ⟨rfl, rfl⟩

/-- As long as `255 - s` fits the 16-bit `int`, a higher request never gives a
higher compare value. -/
theorem speedValue_antitone_in_range (s1 s2 : Int) (h0 : -32512 ≤ s1) (h : s1 ≤ s2)
    (h2 : s2 ≤ 32767) : speedValue s2 ≤ speedValue s1 := by
  unfold speedValue wrapInt
  simp only
  split_ifs <;> omega

/-- C15, the code at the failing input: at level -32768 the subtraction
`255 - s` leaves the 16-bit `int` and comes back as -32513, so `motorASpeed`
stores 1 where `motorAStop` stores 255; the same on channel B. -/
theorem speed_lowest_level_is_not_stop :
    unoRef.fullyValid ∧ (-32768 : Int) ≤ 0 ∧ wrapInt (255 - (-32768)) = -32513 ∧
    (motorASpeed unoRef zeroMem (-32768)).ret = (motorAStop unoRef zeroMem).ret ∧
    (motorASpeed unoRef zeroMem (-32768)).mem unoRef.t.OCRnA = 1 ∧
    (motorAStop unoRef zeroMem).mem unoRef.t.OCRnA = 255 ∧
    (motorBSpeed unoRef zeroMem (-32768)).mem unoRef.t.OCRnB = 1 ∧
    (motorBStop unoRef zeroMem).mem unoRef.t.OCRnB = 255 := by
  decide

/-- C19, the code at the failing input: -32768 ≤ 0, yet the compare value
written for -32768 is 1 and the one written for 0 is 255, on either channel. -/
theorem speed_mapping_not_monotone_at_overflow :
    unoRef.fullyValid ∧ (-32768 : Int) ≤ 0 ∧
    (motorASpeed unoRef zeroMem (-32768)).mem unoRef.t.OCRnA = 1 ∧
    (motorASpeed unoRef zeroMem 0).mem unoRef.t.OCRnA = 255 ∧
    ¬ ((motorASpeed unoRef zeroMem (-32768)).mem unoRef.t.OCRnA ≥
        (motorASpeed unoRef zeroMem 0).mem unoRef.t.OCRnA) ∧
    ¬ ((motorBSpeed unoRef zeroMem (-32768)).mem unoRef.t.OCRnB ≥
        (motorBSpeed unoRef zeroMem 0).mem unoRef.t.OCRnB) := by
  decide

end MotorController
